import Mathlib

/-!
Shallow embedding of the clubGo-server payment-confirmation and join workflow
(src/index.js, main Stripe variant; src/unnamed/part_000, earlier variant).

Collections (Mongo documents) are lists of records; `insertOne` appends and hands
out `Store.nextId` as the inserted `_id`; `updateOne` patches the first matching
document; `findOne` is `List.find?`.  Money values (`membershipFee`, `eventFee`,
JSON `amount` fields) are rationals, since JS numbers are divided by 100 in these
handlers.  Timestamps are integers (milliseconds since epoch), passed in as `now`.
The Stripe gateway is an environment: a map from payment-intent id to its status
and captured amount, and from checkout-session id to the session object.
-/

/-- Status of a Stripe payment intent as reported by `paymentIntents.retrieve`. -/
inductive IntentStatus where
  | succeeded
  | pending
  | failed
  | canceled
  | requiresPaymentMethod
deriving DecidableEq, Repr

/-- What the gateway reports for a payment intent: its state and the amount it
actually captured (minor units).  The handlers in src/index.js only ever read
`status`; `amountReceived` is the authoritative captured amount the spec talks
about. -/
structure IntentInfo where
  status : IntentStatus
  amountReceived : Int
deriving Repr

/-- A Stripe checkout session as returned by `checkout.sessions.retrieve`:
`payment_status`, `amount_total` (minor units), `currency`, `payment_intent`,
and the `clubId` metadata field used by /events/checkout-success. -/
structure Session where
  paymentStatus : String
  amountTotal : Int
  currency : String
  paymentIntent : String
  metadataClubId : Option String
deriving Repr

/-- A document of the `clubs` collection (fields read by the join handlers). -/
structure Club where
  oid : String
  clubName : String
  membershipFee : Rat
  status : String
deriving DecidableEq, Repr

/-- A document of the `events` collection (fields read by the join handlers). -/
structure Event where
  oid : String
  clubId : String
  title : String
  isPaid : Bool
  eventFee : Rat
  maxAttendees : Option Int
deriving DecidableEq, Repr

/-- Read-only environment of a request: the clubs and events collections (none of
the modelled handlers writes them) and the Stripe gateway.  `freshClientSecret`
is the client secret the gateway mints for an intent created during the call. -/
structure Env where
  clubs : List Club
  events : List Event
  intents : String → IntentInfo
  sessions : String → Session
  freshClientSecret : String

/-- A document of the `memberships` collection (main variant): `paymentId` is
`none` for free joins and the `_id` of the funding Payment otherwise. -/
structure MembershipDoc where
  userEmail : String
  clubId : String
  status : String
  joinedAt : Int
  expiryDate : Int
  paymentId : Option Nat
deriving DecidableEq, Repr

/-- A document of the `eventRegistrations` collection. -/
structure Registration where
  rid : Nat
  eventId : String
  clubId : Option String
  userEmail : String
  status : String
  paidAmount : Rat
  joinedAt : Int
  paymentId : Option Nat := none
deriving DecidableEq, Repr

/-- A document of the `payments` collection (the ledger). -/
structure Payment where
  pid : Nat
  userEmail : String
  clubId : Option String
  eventId : Option String
  payType : String
  amount : Rat
  currency : String
  paymentIntentId : Option String
  transactionId : Option String := none
  createdAt : Int
deriving DecidableEq, Repr

/-- The mutable store of a request: the three collections the join/confirm
handlers write, plus the id counter backing `insertOne(...).insertedId`. -/
structure Store where
  memberships : List MembershipDoc
  registrations : List Registration
  payments : List Payment
  nextId : Nat
deriving DecidableEq, Repr

/-- A JSON response: `ok` is a 200 `res.json` success (message names the shape),
`okIntent` is the 200 response of a create-payment-intent handler carrying
`client_secret`, the computed minor-unit `amount` and the club/event label, and
`err` is `res.status(code).json({message})`. -/
inductive Resp where
  | ok (message : String)
  | okIntent (clientSecret : String) (amount : Int) (label : String)
  | err (status : Nat) (message : String)
deriving DecidableEq, Repr

/-- A response reports success iff it is a 200 JSON body. -/
def Resp.isSuccess : Resp → Bool
  | .ok _ => true
  | .okIntent _ _ _ => true
  | .err _ _ => false

/-- 30 days in milliseconds: the `expiryDate` offset `30 * 24 * 60 * 60 * 1000`. -/
def thirtyDaysMs : Int := 30 * 24 * 60 * 60 * 1000

/-- JS `x || y` on an optional number: `none` (undefined, hence NaN) and 0 are
falsy and fall through to `y`. -/
def jsOrQ (x : Option Rat) (y : Rat) : Rat :=
  match x with
  | some a => if a = 0 then y else a
  | none => y

/-- Mongo `updateOne`: patch the first document matching the filter. -/
def updateFirst (q : α → Bool) (f : α → α) : List α → List α
  | [] => []
  | x :: xs => if q x then f x :: xs else x :: updateFirst q f xs

/-- MembershipDoc filter `{userEmail, clubId}` used by `findOne` in the handlers. -/
def memMatch (user clubId : String) (m : MembershipDoc) : Bool :=
  decide (m.userEmail = user ∧ m.clubId = clubId)

/-- Registration filter `{eventId, userEmail}` used by `findOne` in the handlers. -/
def regMatch (eventId user : String) (g : Registration) : Bool :=
  decide (g.eventId = eventId ∧ g.userEmail = user)

/-- Payment filter `{paymentIntentId}` used by the /events/checkout-success
idempotency guard. -/
def payIntentMatch (r : String) (p : Payment) : Bool :=
  decide (p.paymentIntentId = some r)

/-- Number of memberships for a (user, club) pair. -/
def memCount (st : Store) (user clubId : String) : Nat :=
  st.memberships.countP (memMatch user clubId)

/-- Number of registrations for a (event, user) pair. -/
def regCount (st : Store) (eventId user : String) : Nat :=
  st.registrations.countP (regMatch eventId user)

/-- `countDocuments({eventId})`: all registrations for an event (capacity check). -/
def regCountAll (st : Store) (eventId : String) : Nat :=
  st.registrations.countP (fun g => decide (g.eventId = eventId))

/-- Number of ledger rows carrying a given gateway reference. -/
def payCountForIntent (st : Store) (r : String) : Nat :=
  st.payments.countP (payIntentMatch r)

/-- POST /clubs/join (src/index.js:505-540): free club join.  404 if the club is
missing, 400 if `membershipFee > 0`, "Already joined" if a membership for
(user, club) exists, otherwise insert an active membership with
`paymentId: null` and a 30-day expiry. -/
def clubsJoin (env : Env) (user clubId : String) (now : Int) (st : Store) :
    Resp × Store :=
  match env.clubs.find? (fun c => decide (c.oid = clubId)) with
  | none => (.err 404 "Club not found", st)
  | some club =>
    if club.membershipFee > 0 then (.err 400 "This is a paid club", st)
    else if st.memberships.any (memMatch user clubId) then
      (.ok "Already joined", st)
    else
      (.ok "success",
        { st with memberships := st.memberships ++
            [{ userEmail := user, clubId := clubId, status := "active",
               joinedAt := now, expiryDate := now + thirtyDaysMs,
               paymentId := none }] })

/-- POST /clubs/create-payment-intent (src/index.js:546-585): look up the club
with `{_id, status: "approved"}`, reject free clubs, report "Already joined" if
a membership exists, otherwise create a Stripe intent for
`Math.round(fee * 100)` cents and return its client secret; nothing is written
to the store on any path. -/
def clubsCreatePaymentIntent (env : Env) (user clubId : String) (st : Store) :
    Resp × Store :=
  match env.clubs.find? (fun c => decide (c.oid = clubId ∧ c.status = "approved")) with
  | none => (.err 404 "Club not found", st)
  | some club =>
    if jsOrQ (some club.membershipFee) 0 ≤ 0 then
      (.err 400 "This club is free to join", st)
    else if st.memberships.any (memMatch user clubId) then
      (.ok "Already joined", st)
    else
      (.okIntent env.freshClientSecret
        (round (jsOrQ (some club.membershipFee) 0 * 100)) club.clubName, st)

/-- POST /clubs/join/confirm (src/index.js:590-639), instrumented with the list
of successive store states: after the club lookup and the gateway status check,
an existing membership short-circuits with "Already joined"; otherwise the
handler first inserts the Payment ledger row — with `amount` taken from the
client-supplied body field divided by 100 — and then inserts the membership
pointing at it.  The trace records `[st]` on non-writing paths and
`[st, after-payment, after-membership]` on the writing path. -/
def clubsJoinConfirmRun (env : Env) (user clubId paymentIntentId : String)
    (amountClient : Rat) (now : Int) (st : Store) : Resp × List Store :=
  match env.clubs.find? (fun c => decide (c.oid = clubId)) with
  | none => (.err 404 "Club not found", [st])
  | some _club =>
    if (env.intents paymentIntentId).status ≠ .succeeded then
      (.err 400 "Payment not completed", [st])
    else if st.memberships.any (memMatch user clubId) then
      (.ok "Already joined", [st])
    else
      let payDoc : Payment :=
        { pid := st.nextId, userEmail := user, clubId := some clubId,
          eventId := none, payType := "club", amount := amountClient / 100,
          currency := "usd", paymentIntentId := some paymentIntentId,
          createdAt := now }
      let st1 : Store :=
        { st with payments := st.payments ++ [payDoc], nextId := st.nextId + 1 }
      let st2 : Store :=
        { st1 with memberships := st1.memberships ++
            [{ userEmail := user, clubId := clubId, status := "active",
               joinedAt := now, expiryDate := now + thirtyDaysMs,
               paymentId := some payDoc.pid }] }
      (.ok "success", [st, st1, st2])

/-- POST /clubs/join/confirm: response and final store. -/
def clubsJoinConfirm (env : Env) (user clubId paymentIntentId : String)
    (amountClient : Rat) (now : Int) (st : Store) : Resp × Store :=
  let r := clubsJoinConfirmRun env user clubId paymentIntentId amountClient now st
  (r.1, r.2.getLastD st)

/-- POST /clubs/checkout-success (src/index.js:1247-1285), instrumented with the
successive store states: retrieve the checkout session, reject unless
`payment_status = "paid"`, short-circuit on an existing membership, otherwise
insert the Payment row with `amount_total / 100` and then the membership
pointing at it. -/
def clubsCheckoutSuccessRun (env : Env) (user clubId sessionId : String)
    (now : Int) (st : Store) : Resp × List Store :=
  let s := env.sessions sessionId
  if s.paymentStatus ≠ "paid" then (.err 400 "Payment not completed", [st])
  else if st.memberships.any (memMatch user clubId) then
    (.ok "Already joined", [st])
  else
    let payDoc : Payment :=
      { pid := st.nextId, userEmail := user, clubId := some clubId,
        eventId := none, payType := "club", amount := (s.amountTotal : Rat) / 100,
        currency := s.currency, paymentIntentId := some s.paymentIntent,
        createdAt := now }
    let st1 : Store :=
      { st with payments := st.payments ++ [payDoc], nextId := st.nextId + 1 }
    let st2 : Store :=
      { st1 with memberships := st1.memberships ++
          [{ userEmail := user, clubId := clubId, status := "active",
             joinedAt := now, expiryDate := now + thirtyDaysMs,
             paymentId := some payDoc.pid }] }
    (.ok "success", [st, st1, st2])

/-- POST /clubs/checkout-success: response and final store. -/
def clubsCheckoutSuccess (env : Env) (user clubId sessionId : String)
    (now : Int) (st : Store) : Resp × Store :=
  let r := clubsCheckoutSuccessRun env user clubId sessionId now st
  (r.1, r.2.getLastD st)

/-- POST /events/join (src/index.js:833-878): event registration.  Requires a
non-empty `eventId`, 404 if the event is missing, "Already registered" if a
registration for (event, user) exists, "Event is full" when a truthy
`maxAttendees` is set and `countDocuments({eventId}) >= maxAttendees`, otherwise
insert a registration whose status is `pending_payment` for paid events and
`registered` for free ones. -/
def eventsJoin (env : Env) (user eventId : String) (now : Int) (st : Store) :
    Resp × Store :=
  if eventId = "" then (.err 400 "Event ID required", st)
  else
    match env.events.find? (fun e => decide (e.oid = eventId)) with
    | none => (.err 404 "Event not found", st)
    | some ev =>
      if st.registrations.any (regMatch eventId user) then
        (.ok "Already registered", st)
      else
        let full : Bool :=
          match ev.maxAttendees with
          | some cap => decide (cap ≠ 0) && decide ((regCountAll st eventId : Int) ≥ cap)
          | none => false
        if full then (.err 400 "Event is full", st)
        else
          (.ok "Event registration created",
            { st with
                registrations := st.registrations ++
                  [{ rid := st.nextId, eventId := eventId,
                     clubId := some ev.clubId, userEmail := user,
                     status := if ev.isPaid then "pending_payment" else "registered",
                     paidAmount := if ev.isPaid then ev.eventFee else 0,
                     joinedAt := now }],
                nextId := st.nextId + 1 })

/-- POST /events/create-payment-intent (src/index.js:883-917): 404 if the event
is missing, "This event is free" when `!isPaid || !eventFee`, otherwise create a
Stripe intent for `Math.round(Number(eventFee) * 100)` cents and return its
client secret; the store is never written. -/
def eventsCreatePaymentIntent (env : Env) (_user eventId : String) (st : Store) :
    Resp × Store :=
  match env.events.find? (fun e => decide (e.oid = eventId)) with
  | none => (.err 404 "Event not found", st)
  | some ev =>
    if !ev.isPaid || ev.eventFee = 0 then (.err 400 "This event is free", st)
    else
      (.okIntent env.freshClientSecret
        (round (jsOrQ (some ev.eventFee) 0 * 100)) ev.title, st)

/-- POST /events/join/confirm (src/index.js:922-978): 404 if the event is
missing; when a `paymentIntentId` is supplied the gateway status must be
`succeeded`, else 400 "Payment not completed"; the registration for
(event, user) must already exist, else 400 "Registration not found"; then a
Payment row is inserted on every pass — its amount being
`Number(amount) || Number(event.eventFee) || 0`, i.e. the client-supplied body
field when truthy — and the registration is patched to `registered` with the
new payment id.  There is no duplicate-payment guard on this path. -/
def eventsJoinConfirm (env : Env) (user eventId : String)
    (paymentIntentId transactionId : Option String) (amountClient : Option Rat)
    (now : Int) (st : Store) : Resp × Store :=
  match env.events.find? (fun e => decide (e.oid = eventId)) with
  | none => (.err 404 "Event not found", st)
  | some ev =>
    let gatewayFail : Bool :=
      match paymentIntentId with
      | some pid => decide ((env.intents pid).status ≠ .succeeded)
      | none => false
    if gatewayFail then (.err 400 "Payment not completed", st)
    else
      match st.registrations.find? (regMatch eventId user) with
      | none => (.err 400 "Registration not found", st)
      | some reg =>
        let amt : Rat := jsOrQ amountClient (jsOrQ (some ev.eventFee) 0)
        let payDoc : Payment :=
          { pid := st.nextId, userEmail := user, clubId := some ev.clubId,
            eventId := some eventId, payType := "event", amount := amt,
            currency := "usd", paymentIntentId := paymentIntentId,
            transactionId := transactionId, createdAt := now }
        let st1 : Store :=
          { st with payments := st.payments ++ [payDoc], nextId := st.nextId + 1 }
        let regs2 :=
          updateFirst (fun g => decide (g.rid = reg.rid))
            (fun g => { g with status := "registered", paidAmount := amt,
                               paymentId := some payDoc.pid })
            st1.registrations
        let st2 : Store := { st1 with registrations := regs2 }
        (.ok "success", st2)

/-- POST /events/checkout-success (src/index.js:1347-1415): retrieve the
checkout session and reject unless `payment_status = "paid"`; then the
idempotency guard — if a Payment already carries `session.payment_intent`,
return "Already processed" with no writes; otherwise ensure a registration
exists (inserting a `registered` one when missing, its clubId taken from the
session metadata — `none` models a driver-generated ObjectId), insert the
Payment row with `amount_total / 100`, and patch the registration with the
payment id. -/
def eventsCheckoutSuccess (env : Env) (user eventId sessionId : String)
    (now : Int) (st : Store) : Resp × Store :=
  let s := env.sessions sessionId
  if s.paymentStatus ≠ "paid" then (.err 400 "Payment not completed", st)
  else if st.payments.any (payIntentMatch s.paymentIntent) then
    (.ok "Already processed", st)
  else
    let ensured : Nat × Store :=
      match st.registrations.find? (regMatch eventId user) with
      | some reg => (reg.rid, st)
      | none =>
        (st.nextId,
          { st with
              registrations := st.registrations ++
                [{ rid := st.nextId, eventId := eventId,
                   clubId := s.metadataClubId, userEmail := user,
                   status := "registered", joinedAt := now,
                   paidAmount := (s.amountTotal : Rat) / 100 }],
              nextId := st.nextId + 1 })
    let regId := ensured.1
    let st1 := ensured.2
    let payDoc : Payment :=
      { pid := st1.nextId, userEmail := user, clubId := none,
        eventId := some eventId, payType := "event",
        amount := (s.amountTotal : Rat) / 100, currency := s.currency,
        paymentIntentId := some s.paymentIntent, createdAt := now }
    let st2 : Store :=
      { st1 with payments := st1.payments ++ [payDoc], nextId := st1.nextId + 1 }
    let regs3 :=
      updateFirst (fun g => decide (g.rid = regId))
        (fun g => { g with status := "registered",
                           paidAmount := (s.amountTotal : Rat) / 100,
                           paymentId := some payDoc.pid })
        st2.registrations
    let st3 : Store := { st2 with registrations := regs3 }
    (.ok "success", st3)

/-- A document of the `memberships` collection in the part_000 variant: that
variant stores the raw gateway reference string in `paymentId` on the paid path
and omits the field (`none`) on the free path. -/
structure MembershipV0 where
  userEmail : String
  clubId : String
  status : String
  joinedAt : Int
  expiryDate : Int
  paymentId : Option String := none
deriving DecidableEq, Repr

/-- Store of the part_000 variant: its code writes only `memberships`; the
`payments` collection exists but no handler of that variant ever writes it. -/
structure StoreV0 where
  memberships : List MembershipV0
  payments : List Payment
deriving DecidableEq, Repr

/-- MembershipV0 filter `{userEmail, clubId}`. -/
def memMatchV0 (user clubId : String) (m : MembershipV0) : Bool :=
  decide (m.userEmail = user ∧ m.clubId = clubId)

/-- POST /clubs/join in src/unnamed/part_000 (lines 275-299): free join of the
earlier variant — same guard structure as the main variant, no `paymentId`
field on the inserted membership. -/
def clubsJoinV0 (env : Env) (user clubId : String) (now : Int) (st : StoreV0) :
    Resp × StoreV0 :=
  match env.clubs.find? (fun c => decide (c.oid = clubId)) with
  | none => (.err 404 "Club not found", st)
  | some club =>
    if club.membershipFee > 0 then (.err 400 "Paid club", st)
    else if st.memberships.any (memMatchV0 user clubId) then
      (.ok "Already joined", st)
    else
      (.ok "success",
        { st with memberships := st.memberships ++
            [{ userEmail := user, clubId := clubId, status := "active",
               joinedAt := now, expiryDate := now + thirtyDaysMs }] })

/-- POST /clubs/join/confirm in src/unnamed/part_000 (lines 325-343): verify the
intent succeeded, then insert the membership directly — no club lookup, no
duplicate check, and no Payment ledger row is ever written; the membership's
`paymentId` holds the raw gateway reference, not a ledger id. -/
def clubsJoinConfirmV0 (env : Env) (user clubId paymentIntentId : String)
    (now : Int) (st : StoreV0) : Resp × StoreV0 :=
  if (env.intents paymentIntentId).status ≠ .succeeded then
    (.err 400 "Payment failed", st)
  else
    (.ok "success",
      { st with memberships := st.memberships ++
          [{ userEmail := user, clubId := clubId, status := "active",
             joinedAt := now, expiryDate := now + thirtyDaysMs,
             paymentId := some paymentIntentId }] })

/-- Number of memberships for (user, club) in the part_000 variant store. -/
def memCountV0 (st : StoreV0) (user clubId : String) : Nat :=
  st.memberships.countP (memMatchV0 user clubId)

theorem countP_zero_any_false {α : Type} {p : α → Bool} {l : List α}
    (h : l.countP p = 0) : l.any p = false := by
  rw [Bool.eq_false_iff]
  intro hany
  obtain ⟨x, hx, hpx⟩ := List.any_eq_true.1 hany
  exact List.countP_eq_zero.1 h x hx hpx

theorem countP_zero_find_none {α : Type} {p : α → Bool} {l : List α}
    (h : l.countP p = 0) : l.find? p = none :=
  List.find?_eq_none.2 (List.countP_eq_zero.1 h)

theorem countP_updateFirst {α : Type} (p q : α → Bool) (f : α → α)
    (hf : ∀ a, p (f a) = p a) :
    ∀ l : List α, (updateFirst q f l).countP p = l.countP p := by
  intro l
  induction l with
  | nil => rfl
  | cons x xs ih =>
    unfold updateFirst
    by_cases hq : q x = true
    · simp [hq, List.countP_cons, hf]
    · simp [hq, List.countP_cons, ih]

/-- An approved free club used by the witnesses. -/
def club1 : Club :=
  { oid := "c1", clubName := "Chess", membershipFee := 0, status := "approved" }

/-- An approved paid club used by the witnesses. -/
def clubPaid : Club :=
  { oid := "c2", clubName := "Golf", membershipFee := 25, status := "approved" }

/-- A paid event used by the witnesses. -/
def event1 : Event :=
  { oid := "e1", clubId := "c1", title := "Meet", isPaid := true, eventFee := 50,
    maxAttendees := none }

/-- A free, capacity-capped event used by the witnesses. -/
def eventFree : Event :=
  { oid := "e2", clubId := "c1", title := "Picnic", isPaid := false,
    eventFee := 0, maxAttendees := some 2 }

/-- A paid checkout session used by the witnesses. -/
def sess1 : Session :=
  { paymentStatus := "paid", amountTotal := 2500, currency := "usd",
    paymentIntent := "pi_1", metadataClubId := some "c1" }

/-- Environment of the witnesses: every intent succeeded with 2500 captured,
every session paid. -/
def env1 : Env :=
  { clubs := [club1, clubPaid], events := [event1, eventFree],
    intents := fun _ => { status := .succeeded, amountReceived := 2500 },
    sessions := fun _ => sess1, freshClientSecret := "sec_1" }

/-- Environment where the gateway reports canceled intents and unpaid sessions. -/
def envFail : Env :=
  { clubs := [club1, clubPaid], events := [event1, eventFree],
    intents := fun _ => { status := .canceled, amountReceived := 0 },
    sessions := fun _ => { sess1 with paymentStatus := "unpaid" },
    freshClientSecret := "sec_1" }

/-- The empty store. -/
def st0 : Store :=
  { memberships := [], registrations := [], payments := [], nextId := 0 }

theorem clubsJoinConfirmRun_fresh
    (env : Env) (user clubId paymentIntentId : String) (amountClient : Rat)
    (now : Int) (st : Store) (club : Club)
    (hclub : env.clubs.find? (fun c => decide (c.oid = clubId)) = some club)
    (hsucc : (env.intents paymentIntentId).status = .succeeded)
    (hnomem : memCount st user clubId = 0) :
    clubsJoinConfirmRun env user clubId paymentIntentId amountClient now st =
      (.ok "success",
        [st,
         { st with
             payments := st.payments ++
               [{ pid := st.nextId, userEmail := user, clubId := some clubId,
                  eventId := none, payType := "club",
                  amount := amountClient / 100, currency := "usd",
                  paymentIntentId := some paymentIntentId, createdAt := now }],
             nextId := st.nextId + 1 },
         { st with
             memberships := st.memberships ++
               [{ userEmail := user, clubId := clubId, status := "active",
                  joinedAt := now, expiryDate := now + thirtyDaysMs,
                  paymentId := some st.nextId }],
             payments := st.payments ++
               [{ pid := st.nextId, userEmail := user, clubId := some clubId,
                  eventId := none, payType := "club",
                  amount := amountClient / 100, currency := "usd",
                  paymentIntentId := some paymentIntentId, createdAt := now }],
             nextId := st.nextId + 1 }]) := by
  have hany : st.memberships.any (memMatch user clubId) = false :=
    countP_zero_any_false hnomem
  unfold clubsJoinConfirmRun
  rw [hclub]
  simp [hsucc, hany]

theorem clubsCheckoutSuccessRun_fresh
    (env : Env) (user clubId sessionId : String) (now : Int) (st : Store)
    (hpaid : (env.sessions sessionId).paymentStatus = "paid")
    (hnomem : memCount st user clubId = 0) :
    clubsCheckoutSuccessRun env user clubId sessionId now st =
      (.ok "success",
        [st,
         { st with
             payments := st.payments ++
               [{ pid := st.nextId, userEmail := user, clubId := some clubId,
                  eventId := none, payType := "club",
                  amount := ((env.sessions sessionId).amountTotal : Rat) / 100,
                  currency := (env.sessions sessionId).currency,
                  paymentIntentId := some (env.sessions sessionId).paymentIntent,
                  createdAt := now }],
             nextId := st.nextId + 1 },
         { st with
             memberships := st.memberships ++
               [{ userEmail := user, clubId := clubId, status := "active",
                  joinedAt := now, expiryDate := now + thirtyDaysMs,
                  paymentId := some st.nextId }],
             payments := st.payments ++
               [{ pid := st.nextId, userEmail := user, clubId := some clubId,
                  eventId := none, payType := "club",
                  amount := ((env.sessions sessionId).amountTotal : Rat) / 100,
                  currency := (env.sessions sessionId).currency,
                  paymentIntentId := some (env.sessions sessionId).paymentIntent,
                  createdAt := now }],
             nextId := st.nextId + 1 }]) := by
  have hany : st.memberships.any (memMatch user clubId) = false :=
    countP_zero_any_false hnomem
  unfold clubsCheckoutSuccessRun
  simp [hpaid, hany]

theorem eventsCheckoutSuccess_fresh
    (env : Env) (user eventId sessionId : String) (now : Int) (st : Store)
    (hpaid : (env.sessions sessionId).paymentStatus = "paid")
    (hnopay : payCountForIntent st (env.sessions sessionId).paymentIntent = 0)
    (hnoreg : regCount st eventId user = 0) :
    eventsCheckoutSuccess env user eventId sessionId now st =
      (.ok "success",
        { st with
            registrations :=
              updateFirst (fun g => decide (g.rid = st.nextId))
                (fun g => { g with status := "registered",
                                   paidAmount :=
                                     ((env.sessions sessionId).amountTotal : Rat) / 100,
                                   paymentId := some (st.nextId + 1) })
                (st.registrations ++
                  [{ rid := st.nextId, eventId := eventId,
                     clubId := (env.sessions sessionId).metadataClubId,
                     userEmail := user, status := "registered",
                     paidAmount :=
                       ((env.sessions sessionId).amountTotal : Rat) / 100,
                     joinedAt := now }]),
            payments := st.payments ++
              [{ pid := st.nextId + 1, userEmail := user, clubId := none,
                 eventId := some eventId, payType := "event",
                 amount := ((env.sessions sessionId).amountTotal : Rat) / 100,
                 currency := (env.sessions sessionId).currency,
                 paymentIntentId := some (env.sessions sessionId).paymentIntent,
                 createdAt := now }],
            nextId := st.nextId + 2 }) := by
  have hany : st.payments.any (payIntentMatch (env.sessions sessionId).paymentIntent)
      = false := countP_zero_any_false hnopay
  have hfind : st.registrations.find? (regMatch eventId user) = none :=
    countP_zero_find_none hnoreg
  unfold eventsCheckoutSuccess
  simp [hpaid, hany, hfind]

/-- C7: for every existing Club with zero fee and every principal with no prior
membership in it, POST /clubs/join succeeds and the created membership has
status "active", joined timestamp `now`, and `paymentId = null`. -/
theorem clubs_join_free_creates_active_membership
    (env : Env) (user clubId : String) (now : Int) (st : Store) (club : Club)
    (hclub : env.clubs.find? (fun c => decide (c.oid = clubId)) = some club)
    (hfee : club.membershipFee = 0)
    (hnomem : memCount st user clubId = 0) :
    clubsJoin env user clubId now st =
      (.ok "success",
        { st with memberships := st.memberships ++
            [{ userEmail := user, clubId := clubId, status := "active",
               joinedAt := now, expiryDate := now + thirtyDaysMs,
               paymentId := none }] }) := by
  have hany := countP_zero_any_false hnomem
  unfold clubsJoin
  rw [hclub]
  simp [hfee, hany]

/-- Witness for C7 at a concrete free club and empty store. -/
theorem clubs_join_free_creates_active_membership_witness :
    clubsJoin env1 "u@x.com" "c1" 0 st0 =
      (.ok "success",
        { st0 with memberships := st0.memberships ++
            [{ userEmail := "u@x.com", clubId := "c1", status := "active",
               joinedAt := 0, expiryDate := 0 + thirtyDaysMs,
               paymentId := none }] }) :=
  clubs_join_free_creates_active_membership env1 "u@x.com" "c1" 0 st0 club1
    (by decide) (by decide) (by decide)

/-- C8: for every Event with a configured positive `maxAttendees` cap and a
principal not already registered, when the count of registrations for the event
has reached the cap, POST /events/join fails with "Event is full" and the store
is unchanged. -/
theorem events_join_full_rejected
    (env : Env) (user eventId : String) (now : Int) (st : Store) (ev : Event)
    (cap : Int) (hid : eventId ≠ "")
    (hev : env.events.find? (fun e => decide (e.oid = eventId)) = some ev)
    (hnoreg : regCount st eventId user = 0)
    (hcap : ev.maxAttendees = some cap) (hpos : 0 < cap)
    (hfull : (regCountAll st eventId : Int) ≥ cap) :
    eventsJoin env user eventId now st = (.err 400 "Event is full", st) := by
  have hany := countP_zero_any_false hnoreg
  unfold eventsJoin
  simp [hid, hev, hany, hcap, hpos.ne', hfull]

/-- A store holding two registrations for event "e2" (capacity 2), used as the
C8 witness input. -/
def stFull : Store :=
  { memberships := [],
    registrations :=
      [{ rid := 0, eventId := "e2", clubId := some "c1", userEmail := "a@x.com",
         status := "registered", paidAmount := 0, joinedAt := 0 },
       { rid := 1, eventId := "e2", clubId := some "c1", userEmail := "b@x.com",
         status := "registered", paidAmount := 0, joinedAt := 0 }],
    payments := [], nextId := 2 }

/-- Witness for C8: third registration attempt on a 2-capped event with two
registrations is rejected with no writes. -/
theorem events_join_full_rejected_witness :
    eventsJoin env1 "c@x.com" "e2" 0 stFull = (.err 400 "Event is full", stFull) :=
  events_join_full_rejected env1 "c@x.com" "e2" 0 stFull eventFree 2
    (by decide) (by decide) (by decide) (by decide) (by decide) (by decide)

/-- C10: on an existing event, when the gateway check passes (no intent id was
supplied, or the referenced intent succeeded) and the principal has no
registration for the event, POST /events/join/confirm fails with
"Registration not found" and writes nothing. -/
theorem events_join_confirm_requires_registration
    (env : Env) (user eventId : String) (piOpt tid : Option String)
    (amountOpt : Option Rat) (now : Int) (st : Store) (ev : Event)
    (hev : env.events.find? (fun e => decide (e.oid = eventId)) = some ev)
    (hok : ∀ pid, piOpt = some pid → (env.intents pid).status = .succeeded)
    (hnoreg : regCount st eventId user = 0) :
    eventsJoinConfirm env user eventId piOpt tid amountOpt now st =
      (.err 400 "Registration not found", st) := by
  have hfind := countP_zero_find_none hnoreg
  unfold eventsJoinConfirm
  revert hok
  cases piOpt with
  | none => intro _; simp [hev, hfind]
  | some pid => intro hok; simp [hev, hfind, hok pid rfl]

/-- Witness for C10: confirming event "e1" with a succeeded intent but no
registration yields "Registration not found" and no writes. -/
theorem events_join_confirm_requires_registration_witness :
    eventsJoinConfirm env1 "u@x.com" "e1" (some "pi_1") none (some 123) 0 st0 =
      (.err 400 "Registration not found", st0) :=
  events_join_confirm_requires_registration env1 "u@x.com" "e1" (some "pi_1")
    none (some 123) 0 st0 event1 (by decide) (fun _ _ => rfl) (by decide)

/-- C4: whenever the gateway reports the referenced payment in any state other
than terminal success ("succeeded" for intents, "paid" for sessions), each of
the four confirmation handlers — provided its target lookup succeeds where a
lookup precedes the gateway check — responds 400 "Payment not completed" and
leaves the store unchanged. -/
theorem confirm_incomplete_payment_no_writes
    (env : Env) (user clubId eventId pid sid : String) (tid : Option String)
    (amountClient : Rat) (amountOpt : Option Rat) (now : Int) (st : Store) :
    (∀ club, env.clubs.find? (fun c => decide (c.oid = clubId)) = some club →
      (env.intents pid).status ≠ .succeeded →
      clubsJoinConfirm env user clubId pid amountClient now st =
        (.err 400 "Payment not completed", st)) ∧
    (∀ ev, env.events.find? (fun e => decide (e.oid = eventId)) = some ev →
      (env.intents pid).status ≠ .succeeded →
      eventsJoinConfirm env user eventId (some pid) tid amountOpt now st =
        (.err 400 "Payment not completed", st)) ∧
    ((env.sessions sid).paymentStatus ≠ "paid" →
      clubsCheckoutSuccess env user clubId sid now st =
        (.err 400 "Payment not completed", st)) ∧
    ((env.sessions sid).paymentStatus ≠ "paid" →
      eventsCheckoutSuccess env user eventId sid now st =
        (.err 400 "Payment not completed", st)) := by
  refine ⟨?_, ?_, ?_, ?_⟩
  · intro club hclub hfail
    unfold clubsJoinConfirm clubsJoinConfirmRun
    rw [hclub]
    simp [hfail]
  · intro ev hev hfail
    unfold eventsJoinConfirm
    simp [hev, hfail]
  · intro hfail
    unfold clubsCheckoutSuccess clubsCheckoutSuccessRun
    simp [hfail]
  · intro hfail
    unfold eventsCheckoutSuccess
    simp [hfail]

/-- Witness for C4: with a canceled intent and an unpaid session, all four
confirmation handlers reject with "Payment not completed" and no writes. -/
theorem confirm_incomplete_payment_no_writes_witness :
    (clubsJoinConfirm envFail "u@x.com" "c1" "pi_9" 2500 0 st0 =
      (.err 400 "Payment not completed", st0)) ∧
    (eventsJoinConfirm envFail "u@x.com" "e1" (some "pi_9") none (some 2500) 0 st0 =
      (.err 400 "Payment not completed", st0)) ∧
    (clubsCheckoutSuccess envFail "u@x.com" "c1" "cs_9" 0 st0 =
      (.err 400 "Payment not completed", st0)) ∧
    (eventsCheckoutSuccess envFail "u@x.com" "e1" "cs_9" 0 st0 =
      (.err 400 "Payment not completed", st0)) :=
  have h := confirm_incomplete_payment_no_writes envFail "u@x.com" "c1" "e1"
    "pi_9" "cs_9" none 2500 (some 2500) 0 st0
  ⟨h.1 club1 (by decide) (by decide), h.2.1 event1 (by decide) (by decide),
   h.2.2.1 (by decide), h.2.2.2 (by decide)⟩

/-- C9: for an eligible paid target, the create-payment-intent handlers return
the gateway client secret together with `Math.round(fee * 100)`, and neither
handler ever writes the store on any path (last two conjuncts hold
unconditionally). -/
theorem create_payment_intent_amount_and_frame
    (env : Env) (user clubId eventId : String) (st : Store) :
    (∀ club,
      env.clubs.find? (fun c => decide (c.oid = clubId ∧ c.status = "approved"))
        = some club →
      0 < club.membershipFee → memCount st user clubId = 0 →
      clubsCreatePaymentIntent env user clubId st =
        (.okIntent env.freshClientSecret (round (club.membershipFee * 100))
          club.clubName, st)) ∧
    (∀ ev, env.events.find? (fun e => decide (e.oid = eventId)) = some ev →
      ev.isPaid = true → 0 < ev.eventFee →
      eventsCreatePaymentIntent env user eventId st =
        (.okIntent env.freshClientSecret (round (ev.eventFee * 100)) ev.title,
          st)) ∧
    (clubsCreatePaymentIntent env user clubId st).2 = st ∧
    (eventsCreatePaymentIntent env user eventId st).2 = st := by
  refine ⟨?_, ?_, ?_, ?_⟩
  · intro club hclub hpos hnomem
    have hany := countP_zero_any_false hnomem
    unfold clubsCreatePaymentIntent
    rw [hclub]
    simp [jsOrQ, hpos.ne', not_le.2 hpos, hany]
  · intro ev hev hpaid hpos
    unfold eventsCreatePaymentIntent
    simp [hev, hpaid, hpos.ne', jsOrQ]
  · unfold clubsCreatePaymentIntent
    split
    · rfl
    · split
      · rfl
      · split <;> rfl
  · unfold eventsCreatePaymentIntent
    split
    · rfl
    · split <;> rfl

/-- Witness for C9 at the concrete paid club and paid event of `env1`. -/
theorem create_payment_intent_amount_and_frame_witness :
    (clubsCreatePaymentIntent env1 "u@x.com" "c2" st0 =
      (.okIntent env1.freshClientSecret (round (clubPaid.membershipFee * 100))
        clubPaid.clubName, st0)) ∧
    (eventsCreatePaymentIntent env1 "u@x.com" "e1" st0 =
      (.okIntent env1.freshClientSecret (round (event1.eventFee * 100))
        event1.title, st0)) ∧
    (clubsCreatePaymentIntent env1 "u@x.com" "c2" st0).2 = st0 ∧
    (eventsCreatePaymentIntent env1 "u@x.com" "e1" st0).2 = st0 :=
  have h := create_payment_intent_amount_and_frame env1 "u@x.com" "c2" "e1" st0
  ⟨h.1 clubPaid (by decide) (by decide) (by decide),
   h.2.1 event1 (by decide) (by decide) (by decide),
   h.2.2.1, h.2.2.2⟩

/-- C6: a free join immediately replayed for the same principal and target
leaves exactly one Membership/EventRegistration record and both calls report
success ("Already joined"/"Already registered" is a 200 body): proved for
POST /clubs/join of the main variant, POST /events/join, and POST /clubs/join
of the part_000 variant. -/
theorem free_join_replay_idempotent
    (env : Env) (user clubId eventId : String) (now now2 : Int) (st : Store)
    (stv : StoreV0) :
    (∀ club, env.clubs.find? (fun c => decide (c.oid = clubId)) = some club →
      club.membershipFee = 0 → memCount st user clubId = 0 →
      (clubsJoin env user clubId now st).1 = .ok "success" ∧
      clubsJoin env user clubId now2 (clubsJoin env user clubId now st).2 =
        (.ok "Already joined", (clubsJoin env user clubId now st).2) ∧
      memCount (clubsJoin env user clubId now st).2 user clubId = 1) ∧
    (∀ ev, eventId ≠ "" →
      env.events.find? (fun e => decide (e.oid = eventId)) = some ev →
      regCount st eventId user = 0 →
      (∀ cap, ev.maxAttendees = some cap → cap ≠ 0 →
        (regCountAll st eventId : Int) < cap) →
      (eventsJoin env user eventId now st).1 = .ok "Event registration created" ∧
      eventsJoin env user eventId now2 (eventsJoin env user eventId now st).2 =
        (.ok "Already registered", (eventsJoin env user eventId now st).2) ∧
      regCount (eventsJoin env user eventId now st).2 eventId user = 1) ∧
    (∀ club, env.clubs.find? (fun c => decide (c.oid = clubId)) = some club →
      club.membershipFee = 0 → memCountV0 stv user clubId = 0 →
      (clubsJoinV0 env user clubId now stv).1 = .ok "success" ∧
      clubsJoinV0 env user clubId now2 (clubsJoinV0 env user clubId now stv).2 =
        (.ok "Already joined", (clubsJoinV0 env user clubId now stv).2) ∧
      memCountV0 (clubsJoinV0 env user clubId now stv).2 user clubId = 1) := by
  refine ⟨?_, ?_, ?_⟩
  · intro club hclub hfee hnomem
    have hany := countP_zero_any_false hnomem
    have h1 : clubsJoin env user clubId now st =
        (.ok "success",
          { st with memberships := st.memberships ++
              [{ userEmail := user, clubId := clubId, status := "active",
                 joinedAt := now, expiryDate := now + thirtyDaysMs,
                 paymentId := none }] }) := by
      unfold clubsJoin
      rw [hclub]
      simp [hfee, hany]
    rw [h1]
    refine ⟨rfl, ?_, ?_⟩
    · unfold clubsJoin
      rw [hclub]
      simp [hfee, memMatch]
    · simp only [memCount] at hnomem ⊢
      simp [List.countP_append, hnomem, memMatch, List.countP_cons]
  · intro ev hid hev hnoreg hcap
    have hany := countP_zero_any_false hnoreg
    have hfull : (match ev.maxAttendees with
        | some cap =>
          decide (cap ≠ 0) && decide ((regCountAll st eventId : Int) ≥ cap)
        | none => false) = false := by
      cases hm : ev.maxAttendees with
      | none => rfl
      | some cap =>
        by_cases hc : cap = 0
        · simp [hc]
        · simp [hc, not_le.2 (hcap cap hm hc)]
    have h1 : eventsJoin env user eventId now st =
        (.ok "Event registration created",
          { st with
              registrations := st.registrations ++
                [{ rid := st.nextId, eventId := eventId,
                   clubId := some ev.clubId, userEmail := user,
                   status := if ev.isPaid then "pending_payment" else "registered",
                   paidAmount := if ev.isPaid then ev.eventFee else 0,
                   joinedAt := now }],
              nextId := st.nextId + 1 }) := by
      unfold eventsJoin
      simp [hid, hev, hany]
      simpa using hfull
    rw [h1]
    refine ⟨rfl, ?_, ?_⟩
    · unfold eventsJoin
      simp [hid, hev, regMatch]
    · simp only [regCount] at hnoreg ⊢
      simp [List.countP_append, hnoreg, regMatch, List.countP_cons]
  · intro club hclub hfee hnomem
    have hany := countP_zero_any_false hnomem
    have h1 : clubsJoinV0 env user clubId now stv =
        (.ok "success",
          { stv with memberships := stv.memberships ++
              [{ userEmail := user, clubId := clubId, status := "active",
                 joinedAt := now, expiryDate := now + thirtyDaysMs }] }) := by
      unfold clubsJoinV0
      rw [hclub]
      simp [hfee, hany]
    rw [h1]
    refine ⟨rfl, ?_, ?_⟩
    · unfold clubsJoinV0
      rw [hclub]
      simp [hfee, memMatchV0]
    · simp only [memCountV0] at hnomem ⊢
      simp [List.countP_append, hnomem, memMatchV0, List.countP_cons]

/-- Witness for C6 at the free club "c1", the free event "e2" and empty stores. -/
theorem free_join_replay_idempotent_witness :
    ((clubsJoin env1 "u@x.com" "c1" 0 st0).1 = .ok "success" ∧
     clubsJoin env1 "u@x.com" "c1" 7 (clubsJoin env1 "u@x.com" "c1" 0 st0).2 =
       (.ok "Already joined", (clubsJoin env1 "u@x.com" "c1" 0 st0).2) ∧
     memCount (clubsJoin env1 "u@x.com" "c1" 0 st0).2 "u@x.com" "c1" = 1) ∧
    ((eventsJoin env1 "u@x.com" "e2" 0 st0).1 = .ok "Event registration created" ∧
     eventsJoin env1 "u@x.com" "e2" 7 (eventsJoin env1 "u@x.com" "e2" 0 st0).2 =
       (.ok "Already registered", (eventsJoin env1 "u@x.com" "e2" 0 st0).2) ∧
     regCount (eventsJoin env1 "u@x.com" "e2" 0 st0).2 "e2" "u@x.com" = 1) ∧
    ((clubsJoinV0 env1 "u@x.com" "c1" 0 ⟨[], []⟩).1 = .ok "success" ∧
     clubsJoinV0 env1 "u@x.com" "c1" 7 (clubsJoinV0 env1 "u@x.com" "c1" 0 ⟨[], []⟩).2 =
       (.ok "Already joined", (clubsJoinV0 env1 "u@x.com" "c1" 0 ⟨[], []⟩).2) ∧
     memCountV0 (clubsJoinV0 env1 "u@x.com" "c1" 0 ⟨[], []⟩).2 "u@x.com" "c1" = 1) :=
  have h := free_join_replay_idempotent env1 "u@x.com" "c1" "e2" 0 7 st0 ⟨[], []⟩
  ⟨h.1 club1 (by decide) (by decide) (by decide),
   h.2.1 eventFree (by decide) (by decide) (by decide)
     (fun cap hc _ => by
       have h2 : regCountAll st0 "e2" = 0 := by decide
       simp [eventFree] at hc
       omega),
   h.2.2 club1 (by decide) (by decide) (by decide)⟩

/-- C5 fails as stated: event "e1" is a paid target (isPaid, fee 50 > 0), yet
POST /events/join succeeds and creates a `pending_payment` registration instead
of rejecting with InvalidState and writing nothing. -/
theorem events_join_paid_event_creates_record :
    (eventsJoin env1 "u@x.com" "e1" 0 st0).1 = .ok "Event registration created" ∧
    regCount (eventsJoin env1 "u@x.com" "e1" 0 st0).2 "e1" "u@x.com" = 1 ∧
    (eventsJoin env1 "u@x.com" "e1" 0 st0).2.registrations.map Registration.status
      = ["pending_payment"] := by
  refine ⟨by decide, by decide, by decide⟩

/-- C5 (amended): for every existing Club with a positive fee the free-join
operation fails with "This is a paid club" and creates no record; for paid
Events, POST /events/join does not reject — it succeeds and creates a
`pending_payment` registration carrying the event fee. -/
theorem free_join_paid_target_behavior
    (env : Env) (user clubId eventId : String) (now : Int) (st : Store) :
    (∀ club, env.clubs.find? (fun c => decide (c.oid = clubId)) = some club →
      club.membershipFee > 0 →
      clubsJoin env user clubId now st = (.err 400 "This is a paid club", st)) ∧
    (∀ ev, eventId ≠ "" →
      env.events.find? (fun e => decide (e.oid = eventId)) = some ev →
      ev.isPaid = true → regCount st eventId user = 0 →
      (∀ cap, ev.maxAttendees = some cap → cap ≠ 0 →
        (regCountAll st eventId : Int) < cap) →
      eventsJoin env user eventId now st =
        (.ok "Event registration created",
          { st with
              registrations := st.registrations ++
                [{ rid := st.nextId, eventId := eventId,
                   clubId := some ev.clubId, userEmail := user,
                   status := "pending_payment", paidAmount := ev.eventFee,
                   joinedAt := now }],
              nextId := st.nextId + 1 })) := by
  constructor
  · intro club hclub hfee
    unfold clubsJoin
    rw [hclub]
    simp [hfee]
  · intro ev hid hev hpaid hnoreg hcap
    have hany := countP_zero_any_false hnoreg
    have hfull : (match ev.maxAttendees with
        | some cap =>
          decide (cap ≠ 0) && decide ((regCountAll st eventId : Int) ≥ cap)
        | none => false) = false := by
      cases hm : ev.maxAttendees with
      | none => rfl
      | some cap =>
        by_cases hc : cap = 0
        · simp [hc]
        · simp [hc, not_le.2 (hcap cap hm hc)]
    unfold eventsJoin
    simp [hid, hev, hany, hpaid]
    simpa using hfull

/-- Witness for the C5 amended theorem: the paid club "c2" is rejected, the paid
event "e1" gets a pending_payment registration. -/
theorem free_join_paid_target_behavior_witness :
    clubsJoin env1 "u@x.com" "c2" 0 st0 = (.err 400 "This is a paid club", st0) ∧
    eventsJoin env1 "u@x.com" "e1" 0 st0 =
      (.ok "Event registration created",
        { st0 with
            registrations := st0.registrations ++
              [{ rid := st0.nextId, eventId := "e1",
                 clubId := some event1.clubId, userEmail := "u@x.com",
                 status := "pending_payment", paidAmount := event1.eventFee,
                 joinedAt := 0 }],
            nextId := st0.nextId + 1 }) :=
  have h := free_join_paid_target_behavior env1 "u@x.com" "c2" "e1" 0 st0
  ⟨h.1 clubPaid (by decide) (by decide),
   h.2 event1 (by decide) (by decide) (by decide) (by decide)
     (fun cap hc _ => by simp [event1] at hc)⟩

/-- C1 fails as stated: replaying POST /events/join/confirm with the same
gateway reference "pi_1" (second call identical to the first) leaves TWO
Payment rows for that reference — the handler has no duplicate-payment guard —
although both calls report success and only one registration exists. -/
theorem events_join_confirm_replay_duplicates_payment :
    ((eventsJoinConfirm env1 "u@x.com" "e1" (some "pi_1") none (some 123) 1
        (eventsJoin env1 "u@x.com" "e1" 0 st0).2).1.isSuccess = true) ∧
    ((eventsJoinConfirm env1 "u@x.com" "e1" (some "pi_1") none (some 123) 2
        (eventsJoinConfirm env1 "u@x.com" "e1" (some "pi_1") none (some 123) 1
          (eventsJoin env1 "u@x.com" "e1" 0 st0).2).2).1.isSuccess = true) ∧
    payCountForIntent
      (eventsJoinConfirm env1 "u@x.com" "e1" (some "pi_1") none (some 123) 2
        (eventsJoinConfirm env1 "u@x.com" "e1" (some "pi_1") none (some 123) 1
          (eventsJoin env1 "u@x.com" "e1" 0 st0).2).2).2 "pi_1" = 2 ∧
    regCount
      (eventsJoinConfirm env1 "u@x.com" "e1" (some "pi_1") none (some 123) 2
        (eventsJoinConfirm env1 "u@x.com" "e1" (some "pi_1") none (some 123) 1
          (eventsJoin env1 "u@x.com" "e1" 0 st0).2).2).2 "e1" "u@x.com" = 1 := by
  refine ⟨by decide, by decide, by decide, by decide⟩

/-- C1 (amended): the replay-safe behaviour the claim describes holds on the
checkout-session confirmation path.  Starting from a store with no Payment for
the session's gateway reference and no registration for (event, user), calling
POST /events/checkout-success twice with the same session id yields success then
"Already processed" (also a success), an unchanged store on the second call, and
exactly one Payment row for the reference and one registration for the pair. -/
theorem events_checkout_success_replay_idempotent
    (env : Env) (user eventId sessionId : String) (now now2 : Int) (st : Store)
    (hpaid : (env.sessions sessionId).paymentStatus = "paid")
    (hnopay : payCountForIntent st (env.sessions sessionId).paymentIntent = 0)
    (hnoreg : regCount st eventId user = 0) :
    (eventsCheckoutSuccess env user eventId sessionId now st).1 = .ok "success" ∧
    eventsCheckoutSuccess env user eventId sessionId now2
        (eventsCheckoutSuccess env user eventId sessionId now st).2 =
      (.ok "Already processed",
        (eventsCheckoutSuccess env user eventId sessionId now st).2) ∧
    payCountForIntent (eventsCheckoutSuccess env user eventId sessionId now st).2
      (env.sessions sessionId).paymentIntent = 1 ∧
    regCount (eventsCheckoutSuccess env user eventId sessionId now st).2
      eventId user = 1 := by
  have h1 := eventsCheckoutSuccess_fresh env user eventId sessionId now st
    hpaid hnopay hnoreg
  rw [h1]
  refine ⟨rfl, ?_, ?_, ?_⟩
  · unfold eventsCheckoutSuccess
    simp [hpaid, payIntentMatch, List.any_append]
  · simp only [payCountForIntent] at hnopay ⊢
    simp [List.countP_append, hnopay, payIntentMatch, List.countP_cons]
  · simp only [regCount] at hnoreg ⊢
    rw [countP_updateFirst _ _ _ (fun g => by simp [regMatch])]
    simp [List.countP_append, hnoreg, regMatch, List.countP_cons]

/-- Witness for the C1 amended theorem at session "cs_1" of `env1`. -/
theorem events_checkout_success_replay_idempotent_witness :
    (eventsCheckoutSuccess env1 "u@x.com" "e1" "cs_1" 1 st0).1 = .ok "success" ∧
    eventsCheckoutSuccess env1 "u@x.com" "e1" "cs_1" 2
        (eventsCheckoutSuccess env1 "u@x.com" "e1" "cs_1" 1 st0).2 =
      (.ok "Already processed",
        (eventsCheckoutSuccess env1 "u@x.com" "e1" "cs_1" 1 st0).2) ∧
    payCountForIntent (eventsCheckoutSuccess env1 "u@x.com" "e1" "cs_1" 1 st0).2
      (env1.sessions "cs_1").paymentIntent = 1 ∧
    regCount (eventsCheckoutSuccess env1 "u@x.com" "e1" "cs_1" 1 st0).2
      "e1" "u@x.com" = 1 :=
  events_checkout_success_replay_idempotent env1 "u@x.com" "e1" "cs_1" 1 2 st0
    (by decide) (by decide) (by decide)

/-- C2 fails as stated: in `env1` the gateway captured 2500 minor units for
intent "pi_1", yet two runs of POST /clubs/join/confirm differing only in the
client-supplied body `amount` (9900 vs 2500) write different ledger amounts
(99 vs 25 dollars) — the ledger takes the client value, not the gateway's. -/
theorem clubs_join_confirm_ledger_uses_client_amount :
    (env1.intents "pi_1").amountReceived = 2500 ∧
    (clubsJoinConfirm env1 "u@x.com" "c2" "pi_1" 9900 0 st0).2.payments.map
      Payment.amount = [99] ∧
    (clubsJoinConfirm env1 "u@x.com" "c2" "pi_1" 2500 0 st0).2.payments.map
      Payment.amount = [25] ∧
    (clubsJoinConfirm env1 "u@x.com" "c2" "pi_1" 9900 0 st0).1.isSuccess
      = true := by
  have h9 := clubsJoinConfirmRun_fresh env1 "u@x.com" "c2" "pi_1" 9900 0 st0
    clubPaid (by decide) (by decide) (by decide)
  have h2 := clubsJoinConfirmRun_fresh env1 "u@x.com" "c2" "pi_1" 2500 0 st0
    clubPaid (by decide) (by decide) (by decide)
  refine ⟨by decide, ?_, ?_, ?_⟩
  · unfold clubsJoinConfirm
    rw [h9]
    simp [st0]
    norm_num
  · unfold clubsJoinConfirm
    rw [h2]
    simp [st0]
    norm_num
  · unfold clubsJoinConfirm
    rw [h9]
    rfl

/-- C2 (amended): on the checkout-session paths the ledger amount does come from
the gateway — any Payment row written by /clubs/checkout-success or
/events/checkout-success carries `session.amount_total / 100`, and these
handlers read no client-supplied amount at all; the intent-confirmation paths
(/clubs/join/confirm, /events/join/confirm) instead store the client value. -/
theorem checkout_success_ledger_amount_from_gateway
    (env : Env) (user clubId eventId sessionId : String) (now : Int) (st : Store)
    (hpaid : (env.sessions sessionId).paymentStatus = "paid") :
    (memCount st user clubId = 0 →
      (clubsCheckoutSuccess env user clubId sessionId now st).2.payments.map
        Payment.amount =
        st.payments.map Payment.amount ++
          [((env.sessions sessionId).amountTotal : Rat) / 100]) ∧
    (payCountForIntent st (env.sessions sessionId).paymentIntent = 0 →
      (eventsCheckoutSuccess env user eventId sessionId now st).2.payments.map
        Payment.amount =
        st.payments.map Payment.amount ++
          [((env.sessions sessionId).amountTotal : Rat) / 100]) := by
  constructor
  · intro hnomem
    have h := clubsCheckoutSuccessRun_fresh env user clubId sessionId now st
      hpaid hnomem
    unfold clubsCheckoutSuccess
    rw [h]
    simp
  · intro hnopay
    have hany : st.payments.any
        (payIntentMatch (env.sessions sessionId).paymentIntent) = false := by
      apply countP_zero_any_false
      simpa [payCountForIntent] using hnopay
    unfold eventsCheckoutSuccess
    cases hr : st.registrations.find? (regMatch eventId user) with
    | none => simp [hpaid, hany, hr]
    | some reg => simp [hpaid, hany, hr]

/-- Witness for the C2 amended theorem at session "cs_1" (amount_total 2500). -/
theorem checkout_success_ledger_amount_from_gateway_witness :
    (clubsCheckoutSuccess env1 "u@x.com" "c2" "cs_1" 0 st0).2.payments.map
      Payment.amount =
      st0.payments.map Payment.amount ++
        [((env1.sessions "cs_1").amountTotal : Rat) / 100] ∧
    (eventsCheckoutSuccess env1 "u@x.com" "e1" "cs_1" 0 st0).2.payments.map
      Payment.amount =
      st0.payments.map Payment.amount ++
        [((env1.sessions "cs_1").amountTotal : Rat) / 100] :=
  have h := checkout_success_ledger_amount_from_gateway env1 "u@x.com" "c2"
    "e1" "cs_1" 0 st0 (by decide)
  ⟨h.1 (by decide), h.2 (by decide)⟩


/-- C3 fails as stated: in the part_000 variant, POST /clubs/join/confirm on a
succeeded intent reports success and grants a membership while the payments
collection stays empty — access is granted with no Payment ledger record at
all, and the membership's funding reference is the raw gateway string rather
than a written Payment's id. -/
theorem confirm_v0_grants_access_without_ledger :
    (clubsJoinConfirmV0 env1 "u@x.com" "c1" "pi_1" 0 ⟨[], []⟩).1 = .ok "success" ∧
    memCountV0 (clubsJoinConfirmV0 env1 "u@x.com" "c1" "pi_1" 0 ⟨[], []⟩).2
      "u@x.com" "c1" = 1 ∧
    (clubsJoinConfirmV0 env1 "u@x.com" "c1" "pi_1" 0 ⟨[], []⟩).2.payments
      = [] := by
  refine ⟨by decide, by decide, by decide⟩

/-- C3 (amended): in the main variant's club confirmation handlers
(POST /clubs/join/confirm and POST /clubs/checkout-success), a successful run
granting new access writes the Payment ledger row strictly before the
membership: no traversed store state grants access without a ledger row
carrying the gateway reference, some traversed state holds the ledger row while
access is not yet granted, and the final membership's `paymentId` is the `_id`
of the written Payment.  (The part_000 variant, which writes no ledger row at
all, is excluded by the counterexample.) -/
theorem club_confirm_payment_precedes_membership
    (env : Env) (user clubId paymentIntentId sessionId : String)
    (amountClient : Rat) (now : Int) (st : Store)
    (hnomem : memCount st user clubId = 0) :
    (∀ club, env.clubs.find? (fun c => decide (c.oid = clubId)) = some club →
      (env.intents paymentIntentId).status = .succeeded →
      ((clubsJoinConfirmRun env user clubId paymentIntentId amountClient now st).1
          = .ok "success" ∧
       (∀ s ∈ (clubsJoinConfirmRun env user clubId paymentIntentId amountClient
            now st).2,
          0 < memCount s user clubId →
          ∃ p ∈ s.payments, p.paymentIntentId = some paymentIntentId) ∧
       (∃ s ∈ (clubsJoinConfirmRun env user clubId paymentIntentId amountClient
            now st).2,
          (∃ p ∈ s.payments, p.paymentIntentId = some paymentIntentId) ∧
          memCount s user clubId = 0) ∧
       (∃ m ∈ (clubsJoinConfirm env user clubId paymentIntentId amountClient
            now st).2.memberships,
          memMatch user clubId m = true ∧ m.paymentId = some st.nextId ∧
          ∃ p ∈ (clubsJoinConfirm env user clubId paymentIntentId amountClient
              now st).2.payments,
            p.pid = st.nextId ∧ p.paymentIntentId = some paymentIntentId))) ∧
    ((env.sessions sessionId).paymentStatus = "paid" →
      ((clubsCheckoutSuccessRun env user clubId sessionId now st).1
          = .ok "success" ∧
       (∀ s ∈ (clubsCheckoutSuccessRun env user clubId sessionId now st).2,
          0 < memCount s user clubId →
          ∃ p ∈ s.payments,
            p.paymentIntentId = some (env.sessions sessionId).paymentIntent) ∧
       (∃ s ∈ (clubsCheckoutSuccessRun env user clubId sessionId now st).2,
          (∃ p ∈ s.payments,
            p.paymentIntentId = some (env.sessions sessionId).paymentIntent) ∧
          memCount s user clubId = 0) ∧
       (∃ m ∈ (clubsCheckoutSuccess env user clubId sessionId now st).2.memberships,
          memMatch user clubId m = true ∧ m.paymentId = some st.nextId ∧
          ∃ p ∈ (clubsCheckoutSuccess env user clubId sessionId now st).2.payments,
            p.pid = st.nextId ∧
            p.paymentIntentId = some (env.sessions sessionId).paymentIntent))) := by
  constructor
  · intro club hclub hsucc
    have h := clubsJoinConfirmRun_fresh env user clubId paymentIntentId
      amountClient now st club hclub hsucc hnomem
    refine ⟨by rw [h], ?_, ?_, ?_⟩
    · intro s hs hpos
      rw [h] at hs
      simp only [List.mem_cons, List.not_mem_nil, or_false] at hs
      rcases hs with rfl | rfl | rfl
      · omega
      · simp only [memCount] at hpos hnomem
        omega
      · exact ⟨_, List.mem_append_right _ (List.mem_cons_self _ _), rfl⟩
    · rw [h]
      exact ⟨_, List.mem_cons_of_mem _ (List.mem_cons_self _ _),
        ⟨_, List.mem_append_right _ (List.mem_cons_self _ _), rfl⟩, hnomem⟩
    · unfold clubsJoinConfirm
      rw [h]
      exact ⟨_, List.mem_append_right _ (List.mem_cons_self _ _),
        by simp [memMatch], rfl,
        _, List.mem_append_right _ (List.mem_cons_self _ _), rfl, rfl⟩
  · intro hpaid
    have h := clubsCheckoutSuccessRun_fresh env user clubId sessionId now st
      hpaid hnomem
    refine ⟨by rw [h], ?_, ?_, ?_⟩
    · intro s hs hpos
      rw [h] at hs
      simp only [List.mem_cons, List.not_mem_nil, or_false] at hs
      rcases hs with rfl | rfl | rfl
      · omega
      · simp only [memCount] at hpos hnomem
        omega
      · exact ⟨_, List.mem_append_right _ (List.mem_cons_self _ _), rfl⟩
    · rw [h]
      exact ⟨_, List.mem_cons_of_mem _ (List.mem_cons_self _ _),
        ⟨_, List.mem_append_right _ (List.mem_cons_self _ _), rfl⟩, hnomem⟩
    · unfold clubsCheckoutSuccess
      rw [h]
      exact ⟨_, List.mem_append_right _ (List.mem_cons_self _ _),
        by simp [memMatch], rfl,
        _, List.mem_append_right _ (List.mem_cons_self _ _), rfl, rfl⟩

/-- Witness for the C3 amended theorem at the paid club "c2" with intent "pi_1"
and session "cs_1" of `env1`, starting from the empty store. -/
theorem club_confirm_payment_precedes_membership_witness :
    ((clubsJoinConfirmRun env1 "u@x.com" "c2" "pi_1" 2500 0 st0).1
        = .ok "success" ∧
     (∀ s ∈ (clubsJoinConfirmRun env1 "u@x.com" "c2" "pi_1" 2500 0 st0).2,
        0 < memCount s "u@x.com" "c2" →
        ∃ p ∈ s.payments, p.paymentIntentId = some "pi_1") ∧
     (∃ s ∈ (clubsJoinConfirmRun env1 "u@x.com" "c2" "pi_1" 2500 0 st0).2,
        (∃ p ∈ s.payments, p.paymentIntentId = some "pi_1") ∧
        memCount s "u@x.com" "c2" = 0) ∧
     (∃ m ∈ (clubsJoinConfirm env1 "u@x.com" "c2" "pi_1" 2500 0 st0).2.memberships,
        memMatch "u@x.com" "c2" m = true ∧ m.paymentId = some st0.nextId ∧
        ∃ p ∈ (clubsJoinConfirm env1 "u@x.com" "c2" "pi_1" 2500 0 st0).2.payments,
          p.pid = st0.nextId ∧ p.paymentIntentId = some "pi_1")) ∧
    ((clubsCheckoutSuccessRun env1 "u@x.com" "c2" "cs_1" 0 st0).1
        = .ok "success" ∧
     (∀ s ∈ (clubsCheckoutSuccessRun env1 "u@x.com" "c2" "cs_1" 0 st0).2,
        0 < memCount s "u@x.com" "c2" →
        ∃ p ∈ s.payments,
          p.paymentIntentId = some (env1.sessions "cs_1").paymentIntent) ∧
     (∃ s ∈ (clubsCheckoutSuccessRun env1 "u@x.com" "c2" "cs_1" 0 st0).2,
        (∃ p ∈ s.payments,
          p.paymentIntentId = some (env1.sessions "cs_1").paymentIntent) ∧
        memCount s "u@x.com" "c2" = 0) ∧
     (∃ m ∈ (clubsCheckoutSuccess env1 "u@x.com" "c2" "cs_1" 0 st0).2.memberships,
        memMatch "u@x.com" "c2" m = true ∧ m.paymentId = some st0.nextId ∧
        ∃ p ∈ (clubsCheckoutSuccess env1 "u@x.com" "c2" "cs_1" 0 st0).2.payments,
          p.pid = st0.nextId ∧
          p.paymentIntentId = some (env1.sessions "cs_1").paymentIntent)) :=
  have h := club_confirm_payment_precedes_membership env1 "u@x.com" "c2" "pi_1"
    "cs_1" 2500 0 st0 (by decide)
  ⟨h.1 clubPaid (by decide) rfl, h.2 rfl⟩
